import Mathlib

/-!
Shallow embedding of `ros2_control_demo_hardware/src/rrbot_actuator.cpp`
(the `RRBotModularJoint` actuator plugin) and proofs about it.

Modelling choices:
* C++ `double` values are modelled as `Option ℚ`: `some q` is a finite
  value with exact (rather than rounded) arithmetic, `none` models a
  non-finite value (NaN, or the infinities produced by division by zero).
  Arithmetic propagates `none`, and `i < NaN` is false, matching IEEE
  comparison semantics for the loop guards used in the source.
* `std::map::operator[]` plus `stod` on the three hardware parameters is
  modelled by storing each parameter as an already-parsed `Option ℚ`:
  `none` means the parameter is missing or unparsable, in which case
  `stod` throws; `on_init` is therefore an `Except` computation whose
  `.error` outcomes model a thrown exception / undefined behaviour,
  while `.ok` outcomes model a normal return of a `CallbackReturn`.
* Interface export returns descriptors carrying the joint name, the
  interface kind string, and a tag naming which member variable the
  exported pointer refers to.
* `rclcpp::sleep_for` and logging have no effect on the joint state;
  the lifecycle callbacks additionally return the number of one-second
  sleep iterations (equal to the number of countdown log lines) that the
  countdown loop performs, so that the loop's behaviour is observable.
-/

namespace RRBot

/-- A C++ `double`: `some q` is a finite value, `none` a non-finite one. -/
abbrev FloatVal := Option ℚ

/-- Floating-point addition: non-finite operands propagate. -/
def fpAdd : FloatVal → FloatVal → FloatVal
  | some a, some b => some (a + b)
  | _, _ => none

/-- Floating-point subtraction: non-finite operands propagate. -/
def fpSub : FloatVal → FloatVal → FloatVal
  | some a, some b => some (a - b)
  | _, _ => none

/-- Floating-point division: division by zero yields a non-finite value
(`±inf` or NaN in IEEE terms), and non-finite operands propagate. -/
def fpDiv : FloatVal → FloatVal → FloatVal
  | some a, some b => if b = 0 then none else some (a / b)
  | _, _ => none

/-- `std::isnan` (our `none` covers exactly the non-finite values). -/
def isnan (x : FloatVal) : Bool := x.isNone

/-- `hardware_interface::HW_IF_POSITION`. -/
def HW_IF_POSITION : String := "position"

/-- One entry of a joint's `command_interfaces` / `state_interfaces`
description (only the `name` field is consulted by this plugin). -/
structure InterfaceInfo where
  name : String
deriving Repr, DecidableEq, Inhabited

/-- `hardware_interface::ComponentInfo`, restricted to the fields read
by `rrbot_actuator.cpp`. -/
structure ComponentInfo where
  name : String
  command_interfaces : List InterfaceInfo
  state_interfaces : List InterfaceInfo
deriving Repr, DecidableEq, Inhabited

/-- `hardware_interface::HardwareInfo`, restricted to the fields read by
`rrbot_actuator.cpp`.  The three hardware parameters are stored already
parsed: `none` models a missing or unparsable string, on which `stod`
throws. -/
structure HardwareInfo where
  joints : List ComponentInfo
  param_hw_start_duration_sec : Option ℚ
  param_hw_stop_duration_sec : Option ℚ
  param_hw_slowdown : Option ℚ
deriving Repr, DecidableEq, Inhabited

/-- `rclcpp_lifecycle` callback return values used by the source. -/
inductive CallbackReturn where
  | SUCCESS
  | ERROR
deriving Repr, DecidableEq, Inhabited

/-- `hardware_interface::return_type`. -/
inductive HwReturnType where
  | OK
  | ERROR
deriving Repr, DecidableEq, Inhabited

/-- The member variables of `RRBotModularJoint` (plus the stored copy of
the hardware description `info_`). -/
structure RRBotModularJoint where
  hw_start_sec : FloatVal
  hw_stop_sec : FloatVal
  hw_slowdown : FloatVal
  hw_joint_state : FloatVal
  hw_joint_command : FloatVal
  info : HardwareInfo
deriving Repr, DecidableEq, Inhabited

/-- Ways `on_init` can fail to return normally: `stod` throwing
`std::invalid_argument` on a missing/unparsable parameter, or the
out-of-bounds access `info_.joints[0]` on an empty joint list. -/
inductive InitFault where
  | stodInvalidArgument
  | jointsIndexOutOfRange
deriving Repr, DecidableEq

/-- `stod(info_.hardware_parameters[key])`: throws when the parameter is
missing (operator[] inserts an empty string) or unparsable. -/
def stodParam : Option ℚ → Except InitFault ℚ
  | some v => Except.ok v
  | none => Except.error InitFault.stodInvalidArgument

/-- The member state `on_init` builds before the validation checks:
parameters stored, joint state and command set to NaN. -/
def initMembers (info : HardwareInfo) (start stop slow : ℚ) : RRBotModularJoint :=
  { hw_start_sec := some start
    hw_stop_sec := some stop
    hw_slowdown := some slow
    hw_joint_state := none
    hw_joint_command := none
    info := info }

/-- `RRBotModularJoint::on_init`.  Mirrors the source order: the three
`stod` calls run first, then `info_.joints[0]` is taken, then the four
interface-shape checks run in source order, each returning
`CallbackReturn::ERROR` on violation; otherwise `SUCCESS`. -/
def on_init (info : HardwareInfo) : Except InitFault (RRBotModularJoint × CallbackReturn) := do
  let start ← stodParam info.param_hw_start_duration_sec
  let stop ← stodParam info.param_hw_stop_duration_sec
  let slow ← stodParam info.param_hw_slowdown
  let hw := initMembers info start stop slow
  match info.joints with
  | [] => Except.error InitFault.jointsIndexOutOfRange
  | joint :: _ =>
    if joint.command_interfaces.length ≠ 1 then
      Except.ok (hw, CallbackReturn.ERROR)
    else if joint.command_interfaces.headI.name ≠ HW_IF_POSITION then
      Except.ok (hw, CallbackReturn.ERROR)
    else if joint.state_interfaces.length ≠ 1 then
      Except.ok (hw, CallbackReturn.ERROR)
    else if joint.state_interfaces.headI.name ≠ HW_IF_POSITION then
      Except.ok (hw, CallbackReturn.ERROR)
    else
      Except.ok (hw, CallbackReturn.SUCCESS)

/-- Tag for the member variable an exported interface's pointer refers to. -/
inductive MemberPtr where
  | jointState
  | jointCommand
deriving Repr, DecidableEq, Inhabited

/-- A `hardware_interface::StateInterface` / `CommandInterface` as
constructed by this plugin: joint name, interface kind, pointer target. -/
structure ExportedInterface where
  name : String
  interface_name : String
  value_ptr : MemberPtr
deriving Repr, DecidableEq, Inhabited

/-- `RRBotModularJoint::export_state_interfaces`. -/
def export_state_interfaces (hw : RRBotModularJoint) : List ExportedInterface :=
  [{ name := hw.info.joints.headI.name
     interface_name := HW_IF_POSITION
     value_ptr := MemberPtr.jointState }]

/-- `RRBotModularJoint::export_command_interfaces`. -/
def export_command_interfaces (hw : RRBotModularJoint) : List ExportedInterface :=
  [{ name := hw.info.joints.headI.name
     interface_name := HW_IF_POSITION
     value_ptr := MemberPtr.jointCommand }]

/-- `INT_MAX`: the largest value of the source's 32-bit `int` loop
counter. -/
def intMax : ℤ := 2 ^ 31 - 1

/-- Outcome of the countdown loop
`for (int i = i₀; i < sec; i++) { sleep(1); log; }` starting from `i`
with a finite `double` bound `sec`.  The counter is a 32-bit `int`: when
the guard still holds at `i = INT_MAX`, the increment `i++` is signed
overflow — undefined behaviour, in practice wrapping so that the loop
never completes — modelled as `none` (no normal completion).  Otherwise
`some n` gives the number of iterations executed (each one sleep and one
countdown log line). -/
def loopItersFrom (sec : ℚ) (i : ℤ) : Option ℕ :=
  if (i : ℚ) < sec then
    if h : intMax ≤ i then none
    else (loopItersFrom sec (i + 1)).map (· + 1)
  else some 0
termination_by (intMax - i).toNat
decreasing_by omega

/-- Countdown loop outcome from `i = 0` for a `double` bound: a NaN
bound fails the comparison `0 < NaN`, so the loop body never runs and
the loop completes after `0` iterations. -/
def countdownIters : FloatVal → Option ℕ
  | none => some 0
  | some s => loopItersFrom s 0

/-- `RRBotModularJoint::on_activate`: runs the start countdown loop,
then sets the joint state and command to `0` when the state is NaN.
The second component is the number of one-second sleeps performed;
`none` means the loop counter overflows, the loop never completes and
the callback never reaches its return statement (the first component
then describes the unreachable normal return). -/
def on_activate (hw : RRBotModularJoint) : (RRBotModularJoint × CallbackReturn) × Option ℕ :=
  let n := countdownIters hw.hw_start_sec
  let hw' :=
    if isnan hw.hw_joint_state then
      { hw with hw_joint_state := some 0, hw_joint_command := some 0 }
    else hw
  ((hw', CallbackReturn.SUCCESS), n)

/-- `RRBotModularJoint::on_deactivate`: runs the stop countdown loop and
returns `SUCCESS`.  The second component is the number of sleeps, with
`none` again marking counter overflow (no normal return). -/
def on_deactivate (hw : RRBotModularJoint) : (RRBotModularJoint × CallbackReturn) × Option ℕ :=
  ((hw, CallbackReturn.SUCCESS), countdownIters hw.hw_stop_sec)

/-- `RRBotModularJoint::read`: the low-pass simulation update
`hw_joint_state_ += (hw_joint_command_ - hw_joint_state_) / hw_slowdown_`. -/
def read (hw : RRBotModularJoint) : RRBotModularJoint × HwReturnType :=
  ({ hw with
      hw_joint_state :=
        fpAdd hw.hw_joint_state
          (fpDiv (fpSub hw.hw_joint_command hw.hw_joint_state) hw.hw_slowdown) },
    HwReturnType.OK)

/-- `RRBotModularJoint::write`: only logs; no member variable changes. -/
def write (hw : RRBotModularJoint) : RRBotModularJoint × HwReturnType :=
  (hw, HwReturnType.OK)

/-- The interface-shape condition `on_init` validates (exactly one
command interface and one state interface on the first joint, both of
kind `"position"`). -/
def validShape (j : ComponentInfo) : Bool :=
  j.command_interfaces.length == 1 && j.command_interfaces.headI.name == HW_IF_POSITION
    && j.state_interfaces.length == 1 && j.state_interfaces.headI.name == HW_IF_POSITION

/-- The precondition `on_init` relies on without checking: at least one
joint in the description, and all three hardware parameters present and
parsable as numbers. -/
def initPrecond (info : HardwareInfo) : Prop :=
  info.joints ≠ [] ∧ info.param_hw_start_duration_sec.isSome
    ∧ info.param_hw_stop_duration_sec.isSome ∧ info.param_hw_slowdown.isSome

instance (info : HardwareInfo) : Decidable (initPrecond info) := by
  unfold initPrecond
  infer_instance

/-- A sample valid hardware description: one joint with one `"position"`
command interface and one `"position"` state interface, and all three
parameters present (start 2 s, stop 3 s, slowdown 2). -/
def sampleInfo : HardwareInfo :=
  { joints := [{ name := "joint1"
                 command_interfaces := [{ name := "position" }]
                 state_interfaces := [{ name := "position" }] }]
    param_hw_start_duration_sec := some 2
    param_hw_stop_duration_sec := some 3
    param_hw_slowdown := some 2 }

/-- A sample member state after a successful `on_init` and a first
`on_activate`, with the command moved to `1` by a controller. -/
def sampleHW : RRBotModularJoint :=
  { hw_start_sec := some 2
    hw_stop_sec := some 3
    hw_slowdown := some 2
    hw_joint_state := some 0
    hw_joint_command := some 1
    info := sampleInfo }

/-- Closed form of the countdown loop count below the overflow bound:
when `⌈sec⌉ ≤ INT_MAX`, the loop completes after `max 0 (⌈sec⌉ - i)`
iterations from counter value `i`. -/
theorem loopItersFrom_eq_of_le (sec : ℚ) (hsec : ⌈sec⌉ ≤ intMax) (i : ℤ) :
    loopItersFrom sec i = some (⌈sec⌉ - i).toNat := by
  rw [loopItersFrom]
  split
  · have h1 : i < ⌈sec⌉ := Int.lt_ceil.mpr (by assumption)
    rw [dif_neg (by omega), loopItersFrom_eq_of_le sec hsec (i + 1)]
    simp only [Option.map_some', Option.some.injEq]
    omega
  · have h2 : ⌈sec⌉ ≤ i := Int.ceil_le.mpr (le_of_not_lt (by assumption))
    simp only [Option.some.injEq]
    omega
termination_by (intMax - i).toNat
decreasing_by
  have : i < ⌈sec⌉ := Int.lt_ceil.mpr (by assumption)
  omega

/-- Above the overflow bound the loop never completes: when
`INT_MAX < sec`, the guard still holds at `i = INT_MAX` and the `int`
increment overflows. -/
theorem loopItersFrom_none_of_gt (sec : ℚ) (hsec : (intMax : ℚ) < sec) (i : ℤ)
    (hi : i ≤ intMax) : loopItersFrom sec i = none := by
  rw [loopItersFrom]
  have hg : (i : ℚ) < sec := lt_of_le_of_lt (by exact_mod_cast hi) hsec
  rw [if_pos hg]
  by_cases h2 : intMax ≤ i
  · rw [dif_pos h2]
  · rw [dif_neg h2, loopItersFrom_none_of_gt sec hsec (i + 1) (by omega)]
    rfl
termination_by (intMax - i).toNat
decreasing_by omega

/-- For an integer bound `0 ≤ n ≤ INT_MAX`, the countdown loop
completes after exactly `n` iterations. -/
theorem countdownIters_natCast (n : ℕ) (h : (n : ℤ) ≤ intMax) :
    countdownIters (some (n : ℚ)) = some n := by
  rw [countdownIters, loopItersFrom_eq_of_le]
  · simp
  · simpa using h

/-- For a finite bound above `INT_MAX`, the countdown loop never
completes. -/
theorem countdownIters_overflow (s : ℚ) (h : (intMax : ℚ) < s) :
    countdownIters (some s) = none :=
  loopItersFrom_none_of_gt s h 0 (by norm_num [intMax])

/-- C1: for every finite current state `s`, finite command `c` and finite
nonzero slowdown `d`, one call to `read` replaces the joint state by
`s + (c - s) / d`, leaves the command (and every other member) unchanged,
and returns `OK`. -/
theorem read_lowpass_update (hw : RRBotModularJoint) (s c d : ℚ)
    (hs : hw.hw_joint_state = some s) (hc : hw.hw_joint_command = some c)
    (hd : hw.hw_slowdown = some d) (hd0 : d ≠ 0) :
    (read hw).1.hw_joint_state = some (s + (c - s) / d) ∧
      (read hw).1.hw_joint_command = hw.hw_joint_command ∧
      (read hw).1.hw_slowdown = hw.hw_slowdown ∧
      (read hw).1.info = hw.info ∧
      (read hw).2 = HwReturnType.OK := by
  simp [read, hs, hc, hd, fpAdd, fpSub, fpDiv, hd0]

/-- C1 witness: at state `0`, command `1`, slowdown `2`, `read` produces
state `1/2`, keeps the command `1`, and returns `OK`. -/
theorem read_lowpass_update_witness :
    (read sampleHW).1.hw_joint_state = some ((0 : ℚ) + (1 - 0) / 2) ∧
      (read sampleHW).1.hw_joint_command = sampleHW.hw_joint_command ∧
      (read sampleHW).1.hw_slowdown = sampleHW.hw_slowdown ∧
      (read sampleHW).1.info = sampleHW.info ∧
      (read sampleHW).2 = HwReturnType.OK :=
  read_lowpass_update sampleHW 0 1 2 rfl rfl rfl (by norm_num)

/-- C6: with a finite nonzero slowdown, the commanded value is a fixed
point of the simulation update: when the state equals the command,
`read` leaves the state unchanged. -/
theorem read_fixed_point (hw : RRBotModularJoint) (v d : ℚ)
    (hs : hw.hw_joint_state = some v) (hc : hw.hw_joint_command = some v)
    (hd : hw.hw_slowdown = some d) (hd0 : d ≠ 0) :
    (read hw).1.hw_joint_state = hw.hw_joint_state := by
  simp [read, hs, hc, hd, fpAdd, fpSub, fpDiv, hd0]

/-- C6 witness: at state = command = `5`, slowdown `2`, `read` leaves the
state at `5`. -/
theorem read_fixed_point_witness :
    (read { sampleHW with hw_joint_state := some 5, hw_joint_command := some 5
            }).1.hw_joint_state
      = ({ sampleHW with hw_joint_state := some 5, hw_joint_command := some 5
            } : RRBotModularJoint).hw_joint_state :=
  read_fixed_point _ 5 2 rfl rfl rfl (by norm_num)

/-- C8: `write` returns `OK` and leaves the whole member state — in
particular the joint state and joint command — exactly unchanged. -/
theorem write_no_effect (hw : RRBotModularJoint) :
    (write hw).1 = hw ∧ (write hw).2 = HwReturnType.OK :=
  ⟨rfl, rfl⟩

/-- C3 counterexample: with slowdown `1/2`, state `0` and command `1`,
one `read` produces state `2`, which is exactly as far from the command
as the old state was (distance `1`), not strictly closer.  So `read`
does not advance toward the command for every slowdown. -/
theorem read_not_always_closer :
    (read { sampleHW with hw_slowdown := some (1 / 2) }).1.hw_joint_state = some 2 ∧
      ¬ |(2 : ℚ) - 1| < |(0 : ℚ) - 1| := by
  constructor
  · simp [read, sampleHW, fpAdd, fpSub, fpDiv]
  · norm_num

/-- C3 (amended): with a finite slowdown `d > 1/2`, `read` moves the
state strictly closer to a differing finite command, and leaves the
state exactly at the command when they already agree. -/
theorem read_advances_toward_command (hw : RRBotModularJoint) (s c d : ℚ)
    (hs : hw.hw_joint_state = some s) (hc : hw.hw_joint_command = some c)
    (hd : hw.hw_slowdown = some d) (hd2 : 1 / 2 < d) :
    (read hw).1.hw_joint_state = some (s + (c - s) / d) ∧
      (s ≠ c → |s + (c - s) / d - c| < |s - c|) ∧
      (s = c → s + (c - s) / d = s) := by
  have hd0 : (0 : ℚ) < d := lt_trans (by norm_num) hd2
  refine ⟨?_, ?_, ?_⟩
  · simp [read, hs, hc, hd, fpAdd, fpSub, fpDiv, ne_of_gt hd0]
  · intro hne
    have hsc : s - c ≠ 0 := sub_ne_zero.mpr hne
    have key : s + (c - s) / d - c = (s - c) * (1 - 1 / d) := by
      field_simp
      ring
    rw [key, abs_mul]
    have hlt : |1 - 1 / d| < 1 := by
      rw [abs_lt]
      constructor
      · have : 1 / d < 2 := by
          rw [div_lt_iff₀ hd0]
          linarith
        linarith
      · have : 0 < 1 / d := by positivity
        linarith
    calc |s - c| * |1 - 1 / d| < |s - c| * 1 :=
          mul_lt_mul_of_pos_left hlt (abs_pos.mpr hsc)
      _ = |s - c| := mul_one _
  · intro he
    rw [he]
    simp

/-- C3 witness: with slowdown `2`, state `0`, command `1`, the new state
`1/2` is strictly closer to the command than `0` was. -/
theorem read_advances_toward_command_witness :
    (read sampleHW).1.hw_joint_state = some ((0 : ℚ) + (1 - 0) / 2) ∧
      |(0 : ℚ) + (1 - 0) / 2 - 1| < |(0 : ℚ) - 1| :=
  ⟨(read_advances_toward_command sampleHW 0 1 2 rfl rfl rfl (by norm_num)).1,
    (read_advances_toward_command sampleHW 0 1 2 rfl rfl rfl (by norm_num)).2.1
      (by norm_num)⟩

/-- C2: whenever `on_init` returns normally (at least one joint, all
three parameters parse), it returns `SUCCESS` exactly when the first
joint has one command interface and one state interface, both of kind
`"position"`, and the fatal `ERROR` otherwise; the checks happen in this
one call, with the parameters stored and the state set to NaN. -/
theorem on_init_validates (info : HardwareInfo) (j : ComponentInfo)
    (rest : List ComponentInfo) (s p q : ℚ)
    (hj : info.joints = j :: rest)
    (h1 : info.param_hw_start_duration_sec = some s)
    (h2 : info.param_hw_stop_duration_sec = some p)
    (h3 : info.param_hw_slowdown = some q) :
    on_init info =
      Except.ok (initMembers info s p q,
        if validShape j then CallbackReturn.SUCCESS else CallbackReturn.ERROR) := by
  by_cases hc1 : j.command_interfaces.length = 1 <;>
    by_cases hc2 : j.command_interfaces.headI.name = HW_IF_POSITION <;>
    by_cases hc3 : j.state_interfaces.length = 1 <;>
    by_cases hc4 : j.state_interfaces.headI.name = HW_IF_POSITION <;>
    simp [on_init, stodParam, hj, h1, h2, h3, validShape, hc1, hc2, hc3, hc4,
      Except.bind, bind]

/-- C2 witness: on the sample description (valid shape), `on_init`
returns `SUCCESS` with the parameters stored and a NaN state. -/
theorem on_init_validates_witness :
    on_init sampleInfo = Except.ok (initMembers sampleInfo 2 3 2, CallbackReturn.SUCCESS) := by
  have h := on_init_validates sampleInfo
    { name := "joint1"
      command_interfaces := [{ name := "position" }]
      state_interfaces := [{ name := "position" }] } [] 2 3 2 rfl rfl rfl rfl
  simpa [validShape, HW_IF_POSITION] using h

/-- C10: `on_init` returns normally (any `CallbackReturn` at all, rather
than throwing from `stod` or indexing `joints[0]` out of bounds) exactly
when the description has at least one joint and all three hardware
parameters are present and parse as numbers. -/
theorem on_init_normal_return_iff (info : HardwareInfo) :
    (∃ r, on_init info = Except.ok r) ↔ initPrecond info := by
  obtain ⟨joints, ps, pp, pq⟩ := info
  cases ps <;> cases pp <;> cases pq <;> cases joints <;>
    simp [on_init, stodParam, initPrecond, Except.bind, bind] <;>
    split_ifs <;> simp

/-- C10 witness: the sample description satisfies the precondition, and
`on_init` indeed returns normally on it. -/
theorem on_init_normal_return_iff_witness :
    ∃ r, on_init sampleInfo = Except.ok r :=
  (on_init_normal_return_iff sampleInfo).mpr (by decide)

/-- C4 counterexample: with the configured integer start duration
`2 ^ 31` (exactly representable as a `double` and above `INT_MAX`), the
`int` counter overflows before the guard can fail, so `on_activate`
does not perform exactly `2 ^ 31` sleep iterations — the loop never
completes at all. -/
theorem on_activate_overflow_sleep_count :
    (on_activate { sampleHW with
        hw_start_sec := some (((2 ^ 31 : ℕ) : ℚ)) }).2 = none ∧
      (on_activate { sampleHW with
        hw_start_sec := some (((2 ^ 31 : ℕ) : ℚ)) }).2 ≠ some (2 ^ 31 : ℕ) := by
  have h : (on_activate { sampleHW with
      hw_start_sec := some (((2 ^ 31 : ℕ) : ℚ)) }).2 = none := by
    rw [on_activate]
    exact countdownIters_overflow _ (by norm_num [intMax])
  exact ⟨h, by rw [h]; exact fun hc => Option.noConfusion hc⟩

/-- C4 (amended): for configured integer start and stop durations
`n, m ≤ INT_MAX`, `on_activate` performs exactly `n` one-second sleep
iterations (each with its countdown log) and `on_deactivate` exactly
`m`; above `INT_MAX` the `int` counter overflows and the loop never
completes. -/
theorem lifecycle_sleep_counts (n m : ℕ) (hw : RRBotModularJoint)
    (h1 : hw.hw_start_sec = some (n : ℚ)) (h2 : hw.hw_stop_sec = some (m : ℚ))
    (hn : (n : ℤ) ≤ intMax) (hm : (m : ℤ) ≤ intMax) :
    (on_activate hw).2 = some n ∧ (on_deactivate hw).2 = some m := by
  rw [on_activate, on_deactivate, h1, h2]
  exact ⟨countdownIters_natCast n hn, countdownIters_natCast m hm⟩

/-- C4 witness: with start duration `2` and stop duration `3`, the
callbacks sleep `2` and `3` times respectively. -/
theorem lifecycle_sleep_counts_witness :
    (on_activate sampleHW).2 = some 2 ∧ (on_deactivate sampleHW).2 = some 3 :=
  lifecycle_sleep_counts 2 3 sampleHW (by norm_num [sampleHW]) (by norm_num [sampleHW])
    (by norm_num [intMax]) (by norm_num [intMax])

/-- C5 counterexample: the finite configured stop duration
`3000000000` (a value `stod` accepts and a `double` represents exactly)
exceeds `INT_MAX`, so the countdown loop in `on_deactivate` does not
terminate after finitely many iterations: the `int` counter overflows
and the callback never completes. -/
theorem on_deactivate_overflow_no_return :
    (on_deactivate { sampleHW with
        hw_stop_sec := some 3000000000 }).2 = none ∧
      ∀ k : ℕ, (on_deactivate { sampleHW with
        hw_stop_sec := some 3000000000 }).2 ≠ some k := by
  have h : (on_deactivate { sampleHW with
      hw_stop_sec := some 3000000000 }).2 = none := by
    rw [on_deactivate]
    exact countdownIters_overflow _ (by norm_num [intMax])
  exact ⟨h, fun k hc => by rw [h] at hc; exact Option.noConfusion hc⟩

/-- C5 (amended): whenever the countdown loop completes — configured
duration at most `INT_MAX` after rounding up, or a NaN duration — it
does so after the explicit finite count `max 0 ⌈sec⌉` (resp. `0`) with
no early exit, and the callback then returns `SUCCESS`; for finite
durations above `INT_MAX` the `int` counter overflows and the loop
never completes. -/
theorem lifecycle_terminates (hw : RRBotModularJoint) :
    (∀ s : ℚ, hw.hw_start_sec = some s → ⌈s⌉ ≤ intMax →
        (on_activate hw).2 = some ((⌈s⌉).toNat) ∧
          (on_activate hw).1.2 = CallbackReturn.SUCCESS) ∧
      (∀ s : ℚ, hw.hw_stop_sec = some s → ⌈s⌉ ≤ intMax →
        (on_deactivate hw).2 = some ((⌈s⌉).toNat) ∧
          (on_deactivate hw).1.2 = CallbackReturn.SUCCESS) ∧
      (hw.hw_start_sec = none →
        (on_activate hw).2 = some 0 ∧
          (on_activate hw).1.2 = CallbackReturn.SUCCESS) ∧
      (hw.hw_stop_sec = none →
        (on_deactivate hw).2 = some 0 ∧
          (on_deactivate hw).1.2 = CallbackReturn.SUCCESS) ∧
      (∀ s : ℚ, hw.hw_start_sec = some s → (intMax : ℚ) < s →
        (on_activate hw).2 = none) ∧
      (∀ s : ℚ, hw.hw_stop_sec = some s → (intMax : ℚ) < s →
        (on_deactivate hw).2 = none) := by
  refine ⟨fun s hs hle => ⟨?_, rfl⟩, fun s hs hle => ⟨?_, rfl⟩,
    fun h => ⟨?_, rfl⟩, fun h => ⟨?_, rfl⟩,
    fun s hs hgt => ?_, fun s hs hgt => ?_⟩
  · simp_all [on_activate, countdownIters, loopItersFrom_eq_of_le]
  · simp_all [on_deactivate, countdownIters, loopItersFrom_eq_of_le]
  · simp_all [on_activate, countdownIters]
  · simp_all [on_deactivate, countdownIters]
  · simp only [on_activate, hs]
    exact countdownIters_overflow s hgt
  · simp only [on_deactivate, hs]
    exact countdownIters_overflow s hgt

/-- C5 witness: on the sample state (durations `2` and `3`, both below
`INT_MAX`) the loops stop after `⌈2⌉ = 2` and `⌈3⌉ = 3` iterations and
both callbacks return `SUCCESS`. -/
theorem lifecycle_terminates_witness :
    (on_activate sampleHW).2 = some ((⌈(2 : ℚ)⌉).toNat) ∧
      (on_activate sampleHW).1.2 = CallbackReturn.SUCCESS ∧
      (on_deactivate sampleHW).2 = some ((⌈(3 : ℚ)⌉).toNat) ∧
      (on_deactivate sampleHW).1.2 = CallbackReturn.SUCCESS :=
  ⟨((lifecycle_terminates sampleHW).1 2 rfl (by norm_num [intMax])).1,
    ((lifecycle_terminates sampleHW).1 2 rfl (by norm_num [intMax])).2,
    ((lifecycle_terminates sampleHW).2.1 3 rfl (by norm_num [intMax])).1,
    ((lifecycle_terminates sampleHW).2.1 3 rfl (by norm_num [intMax])).2⟩

/-- C7: the plugin exports exactly one state interface and exactly one
command interface, both named after the first joint and both of kind
`"position"`, pointing at the joint state and joint command members. -/
theorem export_single_position_interfaces (hw : RRBotModularJoint) :
    (export_state_interfaces hw).length = 1 ∧
      (export_command_interfaces hw).length = 1 ∧
      (export_state_interfaces hw).headI =
        { name := hw.info.joints.headI.name
          interface_name := HW_IF_POSITION
          value_ptr := MemberPtr.jointState } ∧
      (export_command_interfaces hw).headI =
        { name := hw.info.joints.headI.name
          interface_name := HW_IF_POSITION
          value_ptr := MemberPtr.jointCommand } :=
  ⟨rfl, rfl, rfl, rfl⟩

/-- C9: `on_activate` sets the joint state and command to `0` exactly
when the state is NaN; when the state is a non-NaN number it leaves both
the state and the command unchanged. -/
theorem on_activate_reset_only_when_nan (hw : RRBotModularJoint) :
    (hw.hw_joint_state = none →
        (on_activate hw).1.1.hw_joint_state = some 0 ∧
          (on_activate hw).1.1.hw_joint_command = some 0) ∧
      (hw.hw_joint_state ≠ none →
        (on_activate hw).1.1.hw_joint_state = hw.hw_joint_state ∧
          (on_activate hw).1.1.hw_joint_command = hw.hw_joint_command) := by
  cases h : hw.hw_joint_state <;> simp [on_activate, isnan, h]

/-- C9 witness: on the sample state (state `0`, command `1`, both
non-NaN), re-activation leaves state and command unchanged. -/
theorem on_activate_reset_only_when_nan_witness :
    (on_activate sampleHW).1.1.hw_joint_state = sampleHW.hw_joint_state ∧
      (on_activate sampleHW).1.1.hw_joint_command = sampleHW.hw_joint_command :=
  (on_activate_reset_only_when_nan sampleHW).2 (by simp [sampleHW])

end RRBot
